import Mathlib

/-!
# client-parser: a verified shallow embedding

This file models the user-agent classification engine of the client-parser
repository and proves the specification claims about it.

The repository contains two historically coexisting engines:

* the flag-based engine (`src/constants/regex.ts` first registry together with
  the flat `_detectOSAndDevice` / `_detectBrowser` / `getDeviceType(userAgent)`
  over the flat `IDeviceInfo` shape), and
* the nested CommonJS engine (`src/index.cts` with the second registry,
  returning `device` / `engine` / `os` / `browser` sub-records, a `platform`
  pass-through and an `isBot` flag).

JavaScript regular expressions are embedded as bespoke matchers that follow
the ECMAScript backtracking semantics for exactly the patterns of the
registries: a match is searched position by position from the left
(`findFirst`), at a given position alternatives are tried left to right,
greedy `.*` prefers the longest extension (`dotStarThen`), lazy `.+?` the
shortest (`dotPlusLazyThen`), a quantified character class with nothing after
it captures its maximal run (`litCap`), and the `/i` flag is ASCII
case-insensitivity (`charEqCI`).  `String.match` returning the first capture
group is modelled as `Option (List Char)`; `RegExp.test` as `Bool` or
`Option.isSome`.
-/

namespace ClientParser

/-- Code point of a character after ASCII lower-casing; the `/i` flag of every
registry pattern (all pattern letters are ASCII). -/
def lowerNat (c : Char) : Nat :=
  if 'A' ≤ c && c ≤ 'Z' then c.toNat + 32 else c.toNat

/-- Case-insensitive character equality. -/
def charEqCI (a b : Char) : Bool :=
  lowerNat a == lowerNat b

/-- Digit class `\d`. -/
def isDigitChar (c : Char) : Bool :=
  '0' ≤ c && c ≤ '9'

/-- Class `[\d.]`. -/
def isDigitDot (c : Char) : Bool :=
  isDigitChar c || c == '.'

/-- Class `[\d_]`. -/
def isDigitUnd (c : Char) : Bool :=
  isDigitChar c || c == '_'

/-- Class `[\d_.]`. -/
def isDigitUndDot (c : Char) : Bool :=
  isDigitChar c || c == '_' || c == '.'

/-- Class `[A-Z0-9]` under `/i`. -/
def isAlnumCI (c : Char) : Bool :=
  ('A' ≤ c && c ≤ 'Z') || ('a' ≤ c && c ≤ 'z') || isDigitChar c

/-- ECMAScript line terminators, which `.` does not match. -/
def isLineTerm (c : Char) : Bool :=
  c == '\n' || c == '\r' || c == Char.ofNat 0x2028 || c == Char.ofNat 0x2029

/-- First-argument list is a case-insensitive prefix of the second. -/
def isPrefixCI : List Char → List Char → Bool
  | [], _ => true
  | _ :: _, [] => false
  | p :: ps, c :: cs => charEqCI p c && isPrefixCI ps cs

/-- Leftmost-match search: try the position matcher `f` on every suffix of the
text, earliest position first — the top-level scan of an unanchored
ECMAScript regex. -/
def findFirst {α : Type} (f : List Char → Option α) : List Char → Option α
  | [] => f []
  | l@(_ :: cs) =>
    match f l with
    | some a => some a
    | none => findFirst f cs

/-- A position where the predicate holds exists (used for `RegExp.test` of
capture-free alternations). -/
def existsAt (p : List Char → Bool) : List Char → Bool
  | [] => p []
  | l@(_ :: cs) => p l || existsAt p cs

/-- `RegExp.test` of a case-insensitive literal. -/
def containsCI (pat : String) (l : List Char) : Bool :=
  existsAt (isPrefixCI pat.toList) l

/-- Position matcher for the shape `LITERAL([class]+)` (with nothing after the
group): the literal case-insensitively, then the group captures the maximal
non-empty run of class characters. -/
def litCap (pre : List Char) (f : Char → Bool) (t : List Char) : Option (List Char) :=
  if isPrefixCI pre t then
    if ((t.drop pre.length).takeWhile f).isEmpty then none
    else some ((t.drop pre.length).takeWhile f)
  else none

/-- Greedy `.*` followed by the continuation `g`: the longest extension is
tried first, and `.` cannot consume a line terminator. -/
def dotStarThen {α : Type} (g : List Char → Option α) : List Char → Option α
  | [] => g []
  | l@(c :: cs) =>
    if isLineTerm c then g l
    else
      match dotStarThen g cs with
      | some a => some a
      | none => g l

/-- Lazy `.+?` followed by the continuation `g`: at least one non-terminator
character is consumed, and the shortest extension is tried first. -/
def dotPlusLazyThen {α : Type} (g : List Char → Option α) : List Char → Option α
  | [] => none
  | c :: cs =>
    if isLineTerm c then none
    else
      match g cs with
      | some a => some a
      | none => dotPlusLazyThen g cs

/-- The result of `.replace(/_/g, ".")` on a match. -/
def underscoresToDots (l : List Char) : List Char :=
  l.map (fun c => if c == '_' then '.' else c)

/-!
## First pattern registry (`USER_AGENT_REGEX`, used by the flag-based engine)

Each definition carries the source pattern it embeds.
-/

namespace USER_AGENT_REGEX

/-- `/Windows Phone/i` (test only). -/
def WINDOWS_PHONE (l : List Char) : Bool :=
  containsCI "Windows Phone" l

/-- `/Windows Phone ([\d.]+)/i`. -/
def WINDOWS_PHONE_VERSION (l : List Char) : Option (List Char) :=
  findFirst (litCap "Windows Phone ".toList isDigitDot) l

/-- `/iPad.*OS ([\d_]+)/i`. -/
def IPAD (l : List Char) : Option (List Char) :=
  findFirst (fun t =>
    if isPrefixCI "iPad".toList t then
      dotStarThen (litCap "OS ".toList isDigitUnd) (t.drop 4)
    else none) l

/-- `/OS ([\d_]+)/i`. -/
def IOS_VERSION (l : List Char) : Option (List Char) :=
  findFirst (litCap "OS ".toList isDigitUnd) l

/-- `/iPhone.*OS ([\d_]+)/i`. -/
def IPHONE (l : List Char) : Option (List Char) :=
  findFirst (fun t =>
    if isPrefixCI "iPhone".toList t then
      dotStarThen (litCap "OS ".toList isDigitUnd) (t.drop 6)
    else none) l

/-- `/Android ([\d.]+)/i`. -/
def ANDROID (l : List Char) : Option (List Char) :=
  findFirst (litCap "Android ".toList isDigitDot) l

/-- `/Mobile|Mobi/i` (test only). -/
def MOBILE_OR_MOBI (l : List Char) : Bool :=
  containsCI "Mobile" l || containsCI "Mobi" l

/-- Position matcher of the alternative `SM-T\d+`. -/
def smtAt (t : List Char) : Bool :=
  (litCap "SM-T".toList isDigitChar t).isSome

/-- Position matcher of the alternative `KF[A-Z0-9]{2,}`: as a test, the
unbounded repetition is equivalent to its first two mandatory characters. -/
def kfAt (t : List Char) : Bool :=
  isPrefixCI "KF".toList t &&
    (match t.drop 2 with
     | a :: b :: _ => isAlnumCI a && isAlnumCI b
     | _ => false)

/-- `/Tablet|SM-T\d+|KF[A-Z0-9]{2,}/i` (test only). -/
def TABLET_OR_SMT_OR_KF (l : List Char) : Bool :=
  containsCI "Tablet" l || existsAt smtAt l || existsAt kfAt l

/-- `/Windows NT ([\d.]+)/i`. -/
def WINDOWS_NT (l : List Char) : Option (List Char) :=
  findFirst (litCap "Windows NT ".toList isDigitDot) l

/-- `/Macintosh.*Mac OS X ([\d_]+)/i`. -/
def MAC_OS_X (l : List Char) : Option (List Char) :=
  findFirst (fun t =>
    if isPrefixCI "Macintosh".toList t then
      dotStarThen (litCap "Mac OS X ".toList isDigitUnd) (t.drop 9)
    else none) l

/-- `/Linux/i` (test only). -/
def LINUX (l : List Char) : Bool :=
  containsCI "Linux" l

/-- `/Edg(?:e|)\/([\d.]+)/i`: the alternation tries the spelling with the
trailing `e` first, then the bare `Edg`. -/
def EDGE (l : List Char) : Option (List Char) :=
  findFirst (fun t =>
    match litCap "Edge/".toList isDigitDot t with
    | some v => some v
    | none => litCap "Edg/".toList isDigitDot t) l

/-- `/OPR\/([\d.]+)/i`. -/
def OPERA (l : List Char) : Option (List Char) :=
  findFirst (litCap "OPR/".toList isDigitDot) l

/-- `/Firefox\/([\d.]+)/i`. -/
def FIREFOX (l : List Char) : Option (List Char) :=
  findFirst (litCap "Firefox/".toList isDigitDot) l

/-- `/(?:Chrome|CriOS)\/([\d.]+)/i`. -/
def CHROME_CRIOS (l : List Char) : Option (List Char) :=
  findFirst (fun t =>
    match litCap "Chrome/".toList isDigitDot t with
    | some v => some v
    | none => litCap "CriOS/".toList isDigitDot t) l

/-- `/Safari\/([\d.]+)/i`. -/
def SAFARI (l : List Char) : Option (List Char) :=
  findFirst (litCap "Safari/".toList isDigitDot) l

/-- `/Version\/([\d.]+).*Safari/i`.  The greedy group takes its maximal run:
shrinking it cannot help the tail, because `Safari` cannot begin on a digit
or dot and the run contains no line terminator for `.*` to choke on. -/
def SAFARI_VERSION (l : List Char) : Option (List Char) :=
  findFirst (fun t =>
    match litCap "Version/".toList isDigitDot t with
    | some run =>
      dotStarThen (fun u => if isPrefixCI "Safari".toList u then some run else none)
        (t.drop (8 + run.length))
    | none => none) l

/-- `/MSIE ([\d.]+)|Trident\/.+?rv:([\d.]+)/i`.  The source reads the version
as `ieMatch[1] || ieMatch[2]`, i.e. whichever alternative matched (both
captures are non-empty when set), so a single optional capture models it. -/
def INTERNET_EXPLORER (l : List Char) : Option (List Char) :=
  findFirst (fun t =>
    match litCap "MSIE ".toList isDigitDot t with
    | some v => some v
    | none =>
      if isPrefixCI "Trident/".toList t then
        dotPlusLazyThen (litCap "rv:".toList isDigitDot) (t.drop 8)
      else none) l

/-- `/Edg|OPR/i` (test only). -/
def NOT_EDGE_OPERA (l : List Char) : Bool :=
  containsCI "Edg" l || containsCI "OPR" l

/-- `/iPad|iPhone/i` (test only). -/
def NOT_IPAD_IPHONE (l : List Char) : Bool :=
  containsCI "iPad" l || containsCI "iPhone" l

/-- `/Android/i` (test only). -/
def NOT_ANDROID (l : List Char) : Bool :=
  containsCI "Android" l

/-- `/Chrome|CriOS|Edg|OPR|Firefox/i` (test only). -/
def NOT_CHROME_CRIOS_EDGE_OPERA_FIREFOX (l : List Char) : Bool :=
  containsCI "Chrome" l || containsCI "CriOS" l || containsCI "Edg" l ||
    containsCI "OPR" l || containsCI "Firefox" l

end USER_AGENT_REGEX

/-!
## Second pattern registry (used by the nested CommonJS engine of
`src/index.cts`)

Patterns identical to the first registry are re-used by name.
-/

namespace USER_AGENT_REGEX2

/-- `/Windows Phone (?:OS )?([\d.]+)/i`: the greedy optional group tries the
`OS ` spelling first. -/
def WINDOWS_PHONE (l : List Char) : Option (List Char) :=
  findFirst (fun t =>
    match litCap "Windows Phone OS ".toList isDigitDot t with
    | some v => some v
    | none => litCap "Windows Phone ".toList isDigitDot t) l

/-- Position matcher of `(?:OS|CPU) ([\d_.]+)`, alternatives in source
order. -/
def osOrCpuCap (t : List Char) : Option (List Char) :=
  match litCap "OS ".toList isDigitUndDot t with
  | some v => some v
  | none => litCap "CPU ".toList isDigitUndDot t

/-- `/iPad.*(?:OS|CPU) ([\d_.]+)/i`. -/
def IPAD (l : List Char) : Option (List Char) :=
  findFirst (fun t =>
    if isPrefixCI "iPad".toList t then dotStarThen osOrCpuCap (t.drop 4)
    else none) l

/-- `/iPhone.*(?:OS|CPU) ([\d_.]+)/i`. -/
def IPHONE (l : List Char) : Option (List Char) :=
  findFirst (fun t =>
    if isPrefixCI "iPhone".toList t then dotStarThen osOrCpuCap (t.drop 6)
    else none) l

/-- `/iPod.*(?:OS|CPU) ([\d_.]+)/i`. -/
def IPOD (l : List Char) : Option (List Char) :=
  findFirst (fun t =>
    if isPrefixCI "iPod".toList t then dotStarThen osOrCpuCap (t.drop 4)
    else none) l

/-- `/(?:iPhone|iPad|iPod).*OS ([\d_]+)/i`: the three device alternatives are
mutually exclusive at a given position, so an if-chain realises the ordered
alternation. -/
def IOS_VERSION (l : List Char) : Option (List Char) :=
  findFirst (fun t =>
    if isPrefixCI "iPhone".toList t then
      dotStarThen (litCap "OS ".toList isDigitUnd) (t.drop 6)
    else if isPrefixCI "iPad".toList t then
      dotStarThen (litCap "OS ".toList isDigitUnd) (t.drop 4)
    else if isPrefixCI "iPod".toList t then
      dotStarThen (litCap "OS ".toList isDigitUnd) (t.drop 4)
    else none) l

/-- `/Android ([\d.]+)/i` — same pattern as the first registry. -/
def ANDROID (l : List Char) : Option (List Char) :=
  USER_AGENT_REGEX.ANDROID l

/-- `/Mobi/i` (test only). -/
def MOBILE_INDICATOR (l : List Char) : Bool :=
  containsCI "Mobi" l

/-- `/Tablet|iPad|SM-T\d+|KF[A-Z0-9]{2,}|Nexus 7|Nexus 10/i` (test only). -/
def TABLET_INDICATOR (l : List Char) : Bool :=
  containsCI "Tablet" l || containsCI "iPad" l ||
    existsAt USER_AGENT_REGEX.smtAt l || existsAt USER_AGENT_REGEX.kfAt l ||
    containsCI "Nexus 7" l || containsCI "Nexus 10" l

/-- `/Windows NT ([\d.]+)/i` — same pattern as the first registry. -/
def WINDOWS_NT (l : List Char) : Option (List Char) :=
  USER_AGENT_REGEX.WINDOWS_NT l

/-- `/Macintosh; Intel Mac OS X ([\d_.]+)/i`. -/
def MAC_OS_X (l : List Char) : Option (List Char) :=
  findFirst (litCap "Macintosh; Intel Mac OS X ".toList isDigitUndDot) l

/-- `/Linux/i` — same pattern as the first registry. -/
def LINUX (l : List Char) : Bool :=
  USER_AGENT_REGEX.LINUX l

/-- `/Edg[eA]?\/([\d.]+)/i`: the optional class matches one of `e`, `E`, `a`,
`A` and is tried before the empty alternative. -/
def EDGE (l : List Char) : Option (List Char) :=
  findFirst (fun t =>
    if isPrefixCI "Edg".toList t then
      match
        (match t.drop 3 with
         | c :: cs =>
           if charEqCI c 'e' || charEqCI c 'a' then litCap "/".toList isDigitDot cs
           else none
         | [] => none) with
      | some v => some v
      | none => litCap "/".toList isDigitDot (t.drop 3)
    else none) l

/-- `/(?:Opera|OPR)\/([\d.]+)/i`. -/
def OPERA (l : List Char) : Option (List Char) :=
  findFirst (fun t =>
    match litCap "Opera/".toList isDigitDot t with
    | some v => some v
    | none => litCap "OPR/".toList isDigitDot t) l

/-- `/Firefox\/([\d.]+)/i` — same pattern as the first registry. -/
def FIREFOX (l : List Char) : Option (List Char) :=
  USER_AGENT_REGEX.FIREFOX l

/-- `/(?:Chrome|CriOS|Chromium)\/([\d.]+)/i`. -/
def CHROME_CRIOS (l : List Char) : Option (List Char) :=
  findFirst (fun t =>
    match litCap "Chrome/".toList isDigitDot t with
    | some v => some v
    | none =>
      match litCap "CriOS/".toList isDigitDot t with
      | some v => some v
      | none => litCap "Chromium/".toList isDigitDot t) l

/-- `/Safari\/([\d.]+)/i` — same pattern as the first registry. -/
def SAFARI (l : List Char) : Option (List Char) :=
  USER_AGENT_REGEX.SAFARI l

/-- `/Version\/([\d.]+).*Safari/i` — same pattern as the first registry. -/
def SAFARI_VERSION (l : List Char) : Option (List Char) :=
  USER_AGENT_REGEX.SAFARI_VERSION l

/-- `/MSIE ([\d.]+)|Trident\/.+?rv:([\d.]+)/i` — same pattern as the first
registry. -/
def INTERNET_EXPLORER (l : List Char) : Option (List Char) :=
  USER_AGENT_REGEX.INTERNET_EXPLORER l

/-- `/AppleWebKit\/([\d.]+)/i`. -/
def WEBKIT_ENGINE (l : List Char) : Option (List Char) :=
  findFirst (litCap "AppleWebKit/".toList isDigitDot) l

/-- `/Gecko\/(\d{8}|\d+\.\d+)/i`: eight digits, or else a dotted pair of
greedy digit runs. -/
def GECKO_ENGINE (l : List Char) : Option (List Char) :=
  findFirst (fun t =>
    if isPrefixCI "Gecko/".toList t then
      let rest := t.drop 6
      let eight := rest.take 8
      if eight.length == 8 && eight.all isDigitChar then some eight
      else
        let d1 := rest.takeWhile isDigitChar
        if d1.isEmpty then none
        else
          match rest.drop d1.length with
          | '.' :: rest2 =>
            let d2 := rest2.takeWhile isDigitChar
            if d2.isEmpty then none else some (d1 ++ '.' :: d2)
          | _ => none
    else none) l

/-- `/Trident\/([\d.]+)/i`. -/
def TRIDENT_ENGINE (l : List Char) : Option (List Char) :=
  findFirst (litCap "Trident/".toList isDigitDot) l

/-- `/Presto\/([\d.]+)/i`. -/
def PRESTO_ENGINE (l : List Char) : Option (List Char) :=
  findFirst (litCap "Presto/".toList isDigitDot) l

end USER_AGENT_REGEX2

/-! ## Name constants (`src/constants/names.ts`) -/

namespace DEVICE_TYPES

def UNKNOWN : String := "unknown"

def WINDOWS_PHONE : String := "windows_phone"

def IOS : String := "ios"

def ANDROID : String := "android"

def PC : String := "pc"

end DEVICE_TYPES

namespace OS_NAMES

def UNKNOWN : String := "unknown"

def WINDOWS_PHONE : String := "Windows Phone"

def IOS : String := "iOS"

def ANDROID : String := "Android"

def WINDOWS : String := "Windows"

def MACOS : String := "macOS"

def LINUX : String := "Linux"

end OS_NAMES

namespace BROWSER_NAMES

def UNKNOWN : String := "unknown"

def EDGE : String := "Edge"

def OPERA : String := "Opera"

def FIREFOX : String := "Firefox"

def CHROME : String := "Chrome"

def SAFARI : String := "Safari"

def INTERNET_EXPLORER : String := "Internet Explorer"

end BROWSER_NAMES

/-!
## Flag-based engine (flat `IDeviceInfo` shape)

`os`, `osVersion`, `browser` and `browserVersion` are optional in the
interface and absent (`undefined`) in the initial record, so they are
`Option String` initialised to `none`.
-/

structure IDeviceInfo where
  type : String
  isMobile : Bool
  isTablet : Bool
  os : Option String
  osVersion : Option String
  browser : Option String
  browserVersion : Option String
deriving Repr, DecidableEq

/-- Rules 5-7 of the flat `_detectOSAndDevice` (Windows PC, macOS, Linux),
reached when no mobile rule returned. -/
def _detectDesktopOS (userAgent : List Char) (deviceInfo : IDeviceInfo) : IDeviceInfo :=
  match USER_AGENT_REGEX.WINDOWS_NT userAgent with
  | some windowsMatch =>
    { deviceInfo with
      type := DEVICE_TYPES.PC, os := some OS_NAMES.WINDOWS,
      osVersion := some (String.mk windowsMatch) }
  | none =>
    if (USER_AGENT_REGEX.MAC_OS_X userAgent).isSome &&
        !(USER_AGENT_REGEX.NOT_IPAD_IPHONE userAgent) then
      match USER_AGENT_REGEX.MAC_OS_X userAgent with
      | some macMatch =>
        { deviceInfo with
          type := DEVICE_TYPES.PC, os := some OS_NAMES.MACOS,
          osVersion := some (String.mk (underscoresToDots macMatch)) }
      | none =>
        { deviceInfo with type := DEVICE_TYPES.PC, os := some OS_NAMES.MACOS }
    else if USER_AGENT_REGEX.LINUX userAgent &&
        !(USER_AGENT_REGEX.NOT_ANDROID userAgent) then
      { deviceInfo with type := DEVICE_TYPES.PC, os := some OS_NAMES.LINUX }
    else deviceInfo

/-- The flat `_detectOSAndDevice`: the ordered rule chain Windows Phone, iPad,
iPhone, Android (guarded against Windows Phone), then the desktop rules.
Each source branch mutates the record and returns; here each branch is the
corresponding record update. -/
def _detectOSAndDevice (userAgent : List Char) (deviceInfo : IDeviceInfo) : IDeviceInfo :=
  if USER_AGENT_REGEX.WINDOWS_PHONE userAgent then
    match USER_AGENT_REGEX.WINDOWS_PHONE_VERSION userAgent with
    | some wpMatch =>
      { deviceInfo with
        type := DEVICE_TYPES.WINDOWS_PHONE, os := some OS_NAMES.WINDOWS_PHONE,
        isMobile := true, osVersion := some (String.mk wpMatch) }
    | none =>
      { deviceInfo with
        type := DEVICE_TYPES.WINDOWS_PHONE, os := some OS_NAMES.WINDOWS_PHONE,
        isMobile := true }
  else if (USER_AGENT_REGEX.IPAD userAgent).isSome then
    match USER_AGENT_REGEX.IOS_VERSION userAgent with
    | some versionMatch =>
      { deviceInfo with
        type := DEVICE_TYPES.IOS, os := some OS_NAMES.IOS,
        osVersion := some (String.mk (underscoresToDots versionMatch)),
        isMobile := true, isTablet := true }
    | none =>
      { deviceInfo with
        type := DEVICE_TYPES.IOS, os := some OS_NAMES.IOS,
        isMobile := true, isTablet := true }
  else
    match USER_AGENT_REGEX.IPHONE userAgent with
    | some iPhoneMatch =>
      { deviceInfo with
        type := DEVICE_TYPES.IOS, os := some OS_NAMES.IOS,
        osVersion := some (String.mk (underscoresToDots iPhoneMatch)),
        isMobile := true, isTablet := false }
    | none =>
      match USER_AGENT_REGEX.ANDROID userAgent with
      | some androidMatch =>
        if !(USER_AGENT_REGEX.WINDOWS_PHONE userAgent) then
          if !(USER_AGENT_REGEX.MOBILE_OR_MOBI userAgent) ||
              USER_AGENT_REGEX.TABLET_OR_SMT_OR_KF userAgent then
            { deviceInfo with
              type := DEVICE_TYPES.ANDROID, os := some OS_NAMES.ANDROID,
              osVersion := some (String.mk androidMatch),
              isMobile := true, isTablet := true }
          else
            { deviceInfo with
              type := DEVICE_TYPES.ANDROID, os := some OS_NAMES.ANDROID,
              osVersion := some (String.mk androidMatch), isMobile := true }
        else _detectDesktopOS userAgent deviceInfo
      | none => _detectDesktopOS userAgent deviceInfo

/-- Safari and Internet Explorer rules of the flat `_detectBrowser`, reached
when none of Edge, Opera, Firefox, Chrome fired.  When the Safari guard
passes but the `Version/` pattern fails, the branch returns with nothing
set. -/
def _detectSafariOrIE (userAgent : List Char) (deviceInfo : IDeviceInfo) : IDeviceInfo :=
  if (USER_AGENT_REGEX.SAFARI userAgent).isSome &&
      !(USER_AGENT_REGEX.NOT_CHROME_CRIOS_EDGE_OPERA_FIREFOX userAgent) then
    match USER_AGENT_REGEX.SAFARI_VERSION userAgent with
    | some safariMatch =>
      { deviceInfo with
        browser := some BROWSER_NAMES.SAFARI,
        browserVersion := some (String.mk safariMatch) }
    | none => deviceInfo
  else
    match USER_AGENT_REGEX.INTERNET_EXPLORER userAgent with
    | some ieMatch =>
      { deviceInfo with
        browser := some BROWSER_NAMES.INTERNET_EXPLORER,
        browserVersion := some (String.mk ieMatch) }
    | none => deviceInfo

/-- The flat `_detectBrowser`: Edge, Opera, Firefox, Chrome (guarded), then
Safari / Internet Explorer. -/
def _detectBrowser (userAgent : List Char) (deviceInfo : IDeviceInfo) : IDeviceInfo :=
  match USER_AGENT_REGEX.EDGE userAgent with
  | some edgeMatch =>
    { deviceInfo with
      browser := some BROWSER_NAMES.EDGE,
      browserVersion := some (String.mk edgeMatch) }
  | none =>
    match USER_AGENT_REGEX.OPERA userAgent with
    | some operaMatch =>
      { deviceInfo with
        browser := some BROWSER_NAMES.OPERA,
        browserVersion := some (String.mk operaMatch) }
    | none =>
      match USER_AGENT_REGEX.FIREFOX userAgent with
      | some firefoxMatch =>
        { deviceInfo with
          browser := some BROWSER_NAMES.FIREFOX,
          browserVersion := some (String.mk firefoxMatch) }
      | none =>
        match USER_AGENT_REGEX.CHROME_CRIOS userAgent with
        | some chromeMatch =>
          if !(USER_AGENT_REGEX.NOT_EDGE_OPERA userAgent) then
            { deviceInfo with
              browser := some BROWSER_NAMES.CHROME,
              browserVersion := some (String.mk chromeMatch) }
          else _detectSafariOrIE userAgent deviceInfo
        | none => _detectSafariOrIE userAgent deviceInfo

/-- The flat `getDeviceType(userAgent)`: defaults, then the OS/device phase,
then the browser phase. -/
def getDeviceType (userAgent : String) : IDeviceInfo :=
  let l := userAgent.toList
  let deviceInfo : IDeviceInfo :=
    { type := DEVICE_TYPES.UNKNOWN, isMobile := false, isTablet := false,
      os := none, osVersion := none, browser := none, browserVersion := none }
  _detectBrowser l (_detectOSAndDevice l deviceInfo)

/-!
## Nested CommonJS engine (`src/index.cts`)

The result shape of `src/types/types.ts`: `device`, `engine`, `os`,
`browser` sub-records, the raw string, the platform pass-through and the
`isBot` flag.
-/

structure IDeviceDetails where
  type : String
  name : String
  model : String
  manufacturer : String
deriving Repr, DecidableEq

structure IEngineInfo where
  name : String
  version : String
deriving Repr, DecidableEq

structure IOSInfo where
  name : String
  version : Option String
  architecture : Option String
deriving Repr, DecidableEq

structure IBrowserInfo where
  name : String
  version : String
deriving Repr, DecidableEq

structure IDeviceInfoCjs where
  userAgentString : String
  device : IDeviceDetails
  engine : IEngineInfo
  os : IOSInfo
  browser : IBrowserInfo
  platform : String
  isBot : Bool
deriving Repr, DecidableEq

/-- The CommonJS `_detectOSAndDevice`: Windows Phone, iPad, iPhone, iPod,
Android (with the phone / tablet / generic device naming), Windows NT,
macOS, Linux; each branch returns. -/
def _detectOSAndDeviceCjs (userAgent : List Char) (deviceInfo : IDeviceInfoCjs) : IDeviceInfoCjs :=
  if (USER_AGENT_REGEX2.WINDOWS_PHONE userAgent).isSome then
    let d := { deviceInfo with
      device := { deviceInfo.device with
        type := DEVICE_TYPES.WINDOWS_PHONE, name := "Windows Phone" },
      os := { deviceInfo.os with name := OS_NAMES.WINDOWS_PHONE } }
    match USER_AGENT_REGEX2.WINDOWS_PHONE userAgent with
    | some wpMatch => { d with os := { d.os with version := some (String.mk wpMatch) } }
    | none => d
  else if (USER_AGENT_REGEX2.IPAD userAgent).isSome then
    let d := { deviceInfo with
      device := { deviceInfo.device with type := DEVICE_TYPES.IOS, name := "iPad" },
      os := { deviceInfo.os with name := OS_NAMES.IOS } }
    match USER_AGENT_REGEX2.IOS_VERSION userAgent with
    | some versionMatch =>
      { d with os := { d.os with version := some (String.mk (underscoresToDots versionMatch)) } }
    | none => d
  else if (USER_AGENT_REGEX2.IPHONE userAgent).isSome then
    let d := { deviceInfo with
      device := { deviceInfo.device with type := DEVICE_TYPES.IOS, name := "iPhone" },
      os := { deviceInfo.os with name := OS_NAMES.IOS } }
    match USER_AGENT_REGEX2.IOS_VERSION userAgent with
    | some versionMatch =>
      { d with os := { d.os with version := some (String.mk (underscoresToDots versionMatch)) } }
    | none => d
  else if (USER_AGENT_REGEX2.IPOD userAgent).isSome then
    let d := { deviceInfo with
      device := { deviceInfo.device with type := DEVICE_TYPES.IOS, name := "iPod Touch" },
      os := { deviceInfo.os with name := OS_NAMES.IOS } }
    match USER_AGENT_REGEX2.IOS_VERSION userAgent with
    | some versionMatch =>
      { d with os := { d.os with version := some (String.mk (underscoresToDots versionMatch)) } }
    | none => d
  else
    match USER_AGENT_REGEX2.ANDROID userAgent with
    | some androidMatch =>
      let d := { deviceInfo with
        os := { deviceInfo.os with
          name := OS_NAMES.ANDROID, version := some (String.mk androidMatch) } }
      if USER_AGENT_REGEX2.MOBILE_INDICATOR userAgent then
        { d with device := { d.device with type := DEVICE_TYPES.ANDROID, name := "Android Phone" } }
      else if USER_AGENT_REGEX2.TABLET_INDICATOR userAgent then
        { d with device := { d.device with type := DEVICE_TYPES.ANDROID, name := "Android Tablet" } }
      else
        { d with device := { d.device with type := DEVICE_TYPES.ANDROID, name := "Android Device" } }
    | none =>
      match USER_AGENT_REGEX2.WINDOWS_NT userAgent with
      | some windowsMatch =>
        { deviceInfo with
          device := { deviceInfo.device with type := DEVICE_TYPES.PC, name := "Windows PC" },
          os := { deviceInfo.os with
            name := OS_NAMES.WINDOWS, version := some (String.mk windowsMatch) } }
      | none =>
        if (USER_AGENT_REGEX2.MAC_OS_X userAgent).isSome then
          let d := { deviceInfo with
            device := { deviceInfo.device with type := DEVICE_TYPES.PC, name := "macOS PC" },
            os := { deviceInfo.os with name := OS_NAMES.MACOS } }
          match USER_AGENT_REGEX2.MAC_OS_X userAgent with
          | some macMatch =>
            { d with os := { d.os with version := some (String.mk (underscoresToDots macMatch)) } }
          | none => d
        else if USER_AGENT_REGEX2.LINUX userAgent then
          { deviceInfo with
            device := { deviceInfo.device with type := DEVICE_TYPES.PC, name := "Linux PC" },
            os := { deviceInfo.os with name := OS_NAMES.LINUX } }
        else deviceInfo

/-- The CommonJS `_detectBrowser`: Edge, Opera, Firefox, Chrome (no negative
guards — ordering alone), Safari via the `Version/` pattern, Internet
Explorer; each branch also fills the engine sub-record. -/
def _detectBrowserCjs (userAgent : List Char) (deviceInfo : IDeviceInfoCjs) : IDeviceInfoCjs :=
  match USER_AGENT_REGEX2.EDGE userAgent with
  | some edgeMatch =>
    let d := { deviceInfo with
      browser := { name := BROWSER_NAMES.EDGE, version := String.mk edgeMatch } }
    match USER_AGENT_REGEX2.WEBKIT_ENGINE userAgent with
    | some webkitMatch =>
      { d with engine := { name := "Blink", version := String.mk webkitMatch } }
    | none => d
  | none =>
    match USER_AGENT_REGEX2.OPERA userAgent with
    | some operaMatch =>
      let d := { deviceInfo with
        browser := { name := BROWSER_NAMES.OPERA, version := String.mk operaMatch } }
      let d := match USER_AGENT_REGEX2.WEBKIT_ENGINE userAgent with
        | some webkitMatch =>
          { d with engine := { name := "Blink", version := String.mk webkitMatch } }
        | none => d
      match USER_AGENT_REGEX2.PRESTO_ENGINE userAgent with
      | some prestoMatch =>
        { d with engine := { name := "Presto", version := String.mk prestoMatch } }
      | none => d
    | none =>
      match USER_AGENT_REGEX2.FIREFOX userAgent with
      | some firefoxMatch =>
        let d := { deviceInfo with
          browser := { name := BROWSER_NAMES.FIREFOX, version := String.mk firefoxMatch } }
        match USER_AGENT_REGEX2.GECKO_ENGINE userAgent with
        | some geckoMatch =>
          { d with engine := { name := "Gecko", version := String.mk geckoMatch } }
        | none => d
      | none =>
        match USER_AGENT_REGEX2.CHROME_CRIOS userAgent with
        | some chromeMatch =>
          let d := { deviceInfo with
            browser := { name := BROWSER_NAMES.CHROME, version := String.mk chromeMatch } }
          match USER_AGENT_REGEX2.WEBKIT_ENGINE userAgent with
          | some webkitMatch =>
            { d with engine := { name := "Blink", version := String.mk webkitMatch } }
          | none => d
        | none =>
          match USER_AGENT_REGEX2.SAFARI_VERSION userAgent with
          | some safariVersionMatch =>
            let d := { deviceInfo with
              browser := { name := BROWSER_NAMES.SAFARI, version := String.mk safariVersionMatch } }
            match USER_AGENT_REGEX2.WEBKIT_ENGINE userAgent with
            | some webkitMatch =>
              { d with engine := { name := "WebKit", version := String.mk webkitMatch } }
            | none => d
          | none =>
            match USER_AGENT_REGEX2.INTERNET_EXPLORER userAgent with
            | some ieMatch =>
              let d := { deviceInfo with
                browser := { name := BROWSER_NAMES.INTERNET_EXPLORER, version := String.mk ieMatch } }
              match USER_AGENT_REGEX2.TRIDENT_ENGINE userAgent with
              | some tridentMatch =>
                { d with engine := { name := "Trident", version := String.mk tridentMatch } }
              | none => d
            | none => deviceInfo

/-- The CommonJS `getDeviceType(userAgent, platform = "")`: the default-filled
record (platform copied verbatim), then the two classification phases. -/
def getDeviceTypeCjs (userAgent : String) (platform : String := "") : IDeviceInfoCjs :=
  let l := userAgent.toList
  let deviceInfo : IDeviceInfoCjs :=
    { userAgentString := userAgent,
      device := { type := DEVICE_TYPES.UNKNOWN, name := "unknown",
                  model := "unknown", manufacturer := "unknown" },
      engine := { name := "unknown", version := "unknown" },
      os := { name := OS_NAMES.UNKNOWN, version := none, architecture := none },
      browser := { name := BROWSER_NAMES.UNKNOWN, version := "unknown" },
      platform := platform,
      isBot := false }
  _detectBrowserCjs l (_detectOSAndDeviceCjs l deviceInfo)

/-!
## Concrete identifying strings used by the specification's ordering cases
and by witnesses
-/

def edgeSampleUA : String :=
  "Mozilla/5.0 (Windows NT 10.0; Win64; x64) AppleWebKit/537.36 (KHTML, like Gecko) Chrome/100.0.4896.127 Safari/537.36 Edg/95.0.1020.30"

def operaSampleUA : String :=
  "Mozilla/5.0 (Windows NT 10.0; Win64; x64) AppleWebKit/537.36 (KHTML, like Gecko) Chrome/95.0.4638.54 Safari/537.36 OPR/81.0.4196.60"

def safariSampleUA : String :=
  "Mozilla/5.0 (Macintosh; Intel Mac OS X 10_15_7) AppleWebKit/605.1.15 (KHTML, like Gecko) Version/15.1 Safari/605.1.15"

def ieSampleUA : String :=
  "Mozilla/5.0 (Windows NT 6.3; Trident/7.0; rv:11.0) like Gecko"

def iphoneSampleUA : String :=
  "Mozilla/5.0 (iPhone; CPU iPhone OS 17_0_3 like Mac OS X) AppleWebKit/605.1.15 (KHTML, like Gecko) Version/17.0 Mobile/15E148 Safari/604.1"

def androidTabletSampleUA : String :=
  "Mozilla/5.0 (Linux; Android 13; SM-T970) AppleWebKit/537.36 (KHTML, like Gecko) Chrome/110.0.0.0 Safari/537.36"

def androidPhoneSampleUA : String :=
  "Mozilla/5.0 (Linux; Android 13; Pixel 7) AppleWebKit/537.36 (KHTML, like Gecko) Chrome/110.0.0.0 Mobile Safari/537.36"

def msieSampleUA : String :=
  "Mozilla/4.0 (compatible; MSIE 8.0; Windows NT 6.0)"

def wpLegacySampleUA : String :=
  "Windows Phone OS 7.0"

def wpModernSampleUA : String :=
  "Mozilla/5.0 (Windows Phone 8.1; ARM; Trident/7.0; Touch; rv:11.0; IEMobile/11.0) like Gecko"

def safariNoVersionSampleUA : String :=
  "Safari/605.1.15 MSIE 8.0"

/-!
## Auxiliary predicates used by the claim statements
-/

/-- No character of a string is an underscore. -/
def noUnd (s : String) : Bool :=
  s.toList.all (fun c => !(c == '_'))

/-- An optional string field is either unset or underscore-free. -/
def optNoUnd : Option String → Bool
  | none => true
  | some s => noUnd s

/-- No pattern of either registry that can fire a classification rule matches
the string — the specification's "absence of any recognizable token". -/
def noRecognizedToken (userAgent : String) : Bool :=
  !(USER_AGENT_REGEX.WINDOWS_PHONE userAgent.toList) &&
  (USER_AGENT_REGEX.IPAD userAgent.toList).isNone &&
  (USER_AGENT_REGEX.IPHONE userAgent.toList).isNone &&
  (USER_AGENT_REGEX.ANDROID userAgent.toList).isNone &&
  (USER_AGENT_REGEX.WINDOWS_NT userAgent.toList).isNone &&
  (USER_AGENT_REGEX.MAC_OS_X userAgent.toList).isNone &&
  !(USER_AGENT_REGEX.LINUX userAgent.toList) &&
  (USER_AGENT_REGEX.EDGE userAgent.toList).isNone &&
  (USER_AGENT_REGEX.OPERA userAgent.toList).isNone &&
  (USER_AGENT_REGEX.FIREFOX userAgent.toList).isNone &&
  (USER_AGENT_REGEX.CHROME_CRIOS userAgent.toList).isNone &&
  (USER_AGENT_REGEX.SAFARI userAgent.toList).isNone &&
  (USER_AGENT_REGEX.SAFARI_VERSION userAgent.toList).isNone &&
  (USER_AGENT_REGEX.INTERNET_EXPLORER userAgent.toList).isNone &&
  (USER_AGENT_REGEX2.WINDOWS_PHONE userAgent.toList).isNone &&
  (USER_AGENT_REGEX2.IPAD userAgent.toList).isNone &&
  (USER_AGENT_REGEX2.IPHONE userAgent.toList).isNone &&
  (USER_AGENT_REGEX2.IPOD userAgent.toList).isNone &&
  (USER_AGENT_REGEX2.MAC_OS_X userAgent.toList).isNone &&
  (USER_AGENT_REGEX2.EDGE userAgent.toList).isNone &&
  (USER_AGENT_REGEX2.OPERA userAgent.toList).isNone &&
  (USER_AGENT_REGEX2.CHROME_CRIOS userAgent.toList).isNone

/-- The flat all-defaults record: type unknown, flags false, all optional
fields unset. -/
def defaultDeviceInfo : IDeviceInfo :=
  { type := DEVICE_TYPES.UNKNOWN, isMobile := false, isTablet := false,
    os := none, osVersion := none, browser := none, browserVersion := none }

/-- The CommonJS all-defaults record for a given input and platform hint. -/
def defaultDeviceInfoCjs (userAgent platform : String) : IDeviceInfoCjs :=
  { userAgentString := userAgent,
    device := { type := DEVICE_TYPES.UNKNOWN, name := "unknown",
                model := "unknown", manufacturer := "unknown" },
    engine := { name := "unknown", version := "unknown" },
    os := { name := OS_NAMES.UNKNOWN, version := none, architecture := none },
    browser := { name := BROWSER_NAMES.UNKNOWN, version := "unknown" },
    platform := platform,
    isBot := false }

/-!
## Generic facts about the matcher combinators
-/

/-- A successful leftmost search happens at some suffix of the text. -/
theorem findFirst_some {α : Type} (f : List Char → Option α) :
    ∀ (l : List Char) (a : α), findFirst f l = some a → ∃ t, t <:+ l ∧ f t = some a := by
  intro l
  induction l with
  | nil => exact fun a h => ⟨[], List.suffix_refl _, h⟩
  | cons c cs ih =>
    intro a h
    unfold findFirst at h
    split at h
    · next b hb => exact ⟨c :: cs, List.suffix_refl _, hb.trans h⟩
    · obtain ⟨t, ht, hft⟩ := ih a h
      exact ⟨t, ht.trans (List.suffix_cons c cs), hft⟩

/-- If the position predicate holds on a suffix, `existsAt` finds it. -/
theorem existsAt_of (p : List Char → Bool) :
    ∀ (l t : List Char), t <:+ l → p t = true → existsAt p l = true := by
  intro l
  induction l with
  | nil =>
    intro t ht hp
    rw [List.suffix_nil.mp ht] at hp
    exact hp
  | cons c cs ih =>
    intro t ht hp
    rcases List.suffix_cons_iff.mp ht with h | h
    · subst h
      unfold existsAt
      rw [hp]
      rfl
    · unfold existsAt
      rw [ih t h hp]
      simp

/-- A case-insensitive literal occurring on a suffix makes `containsCI`
true. -/
theorem containsCI_of (pat : String) (l t : List Char) (ht : t <:+ l)
    (hp : isPrefixCI pat.toList t = true) : containsCI pat l = true :=
  existsAt_of _ l t ht hp

/-- Shortening the pattern preserves a case-insensitive prefix match. -/
theorem isPrefixCI_append :
    ∀ (p q t : List Char), isPrefixCI (p ++ q) t = true → isPrefixCI p t = true := by
  intro p
  induction p with
  | nil => intro q t _; rfl
  | cons a ps ih =>
    intro q t h
    cases t with
    | nil => exact absurd h (by simp [isPrefixCI])
    | cons c cs =>
      simp only [List.cons_append, isPrefixCI, Bool.and_eq_true] at h ⊢
      exact ⟨h.1, ih q cs h.2⟩

/-- Anatomy of a successful `litCap`: the literal matched and the capture is
the maximal run. -/
theorem litCap_eq_some {pre : List Char} {f : Char → Bool} {t v : List Char}
    (h : litCap pre f t = some v) :
    isPrefixCI pre t = true ∧ v = (t.drop pre.length).takeWhile f := by
  unfold litCap at h
  split at h
  · next hpre =>
    split at h
    · exact absurd h (by simp)
    · exact ⟨hpre, (Option.some.inj h).symm⟩
  · exact absurd h (by simp)

/-- A `litCap` capture consists of class characters only. -/
theorem litCap_all {pre : List Char} {f : Char → Bool} {t v : List Char}
    (h : litCap pre f t = some v) : v.all f = true := by
  rw [(litCap_eq_some h).2]
  exact List.all_takeWhile

/-- A successful greedy `.*` continuation succeeded at some position. -/
theorem dotStarThen_some {α : Type} (g : List Char → Option α) :
    ∀ (l : List Char) (a : α), dotStarThen g l = some a → ∃ u, g u = some a := by
  intro l
  induction l with
  | nil => exact fun a h => ⟨[], h⟩
  | cons c cs ih =>
    intro a h
    unfold dotStarThen at h
    split at h
    · exact ⟨c :: cs, h⟩
    · split at h
      · next b hb => exact (ih b hb).imp fun u hu => hu.trans h
      · exact ⟨c :: cs, h⟩

/-- A successful lazy `.+?` continuation succeeded at some position. -/
theorem dotPlusLazyThen_some {α : Type} (g : List Char → Option α) :
    ∀ (l : List Char) (a : α), dotPlusLazyThen g l = some a → ∃ u, g u = some a := by
  intro l
  induction l with
  | nil => intro a h; exact absurd h (by simp [dotPlusLazyThen])
  | cons c cs ih =>
    intro a h
    unfold dotPlusLazyThen at h
    split at h
    · exact absurd h (by simp)
    · split at h
      · next b hb => exact ⟨cs, hb.trans h⟩
      · exact ih a h

/-!
## Capture classes of the individual patterns

Each `match` capture of the registries is a character-class run; these
lemmas record which class.
-/

/-- A `[\d.]` run is underscore-free. -/
theorem noUnd_of_digitDot {v : List Char} (h : v.all isDigitDot = true) :
    noUnd (String.mk v) = true := by
  rw [noUnd]
  rw [List.all_eq_true] at h ⊢
  intro c hc
  have := h c hc
  revert this
  unfold isDigitDot isDigitChar
  rcases Decidable.em (c = '_') with rfl | hne
  · decide
  · simp [hne]

/-- Unfolding helper: the characters of a packed list are the list. -/
theorem toList_mk (v : List Char) : (String.mk v).toList = v := rfl

/-- The result of `.replace(/_/g, ".")` is underscore-free. -/
theorem noUnd_underscoresToDots (v : List Char) :
    noUnd (String.mk (underscoresToDots v)) = true := by
  rw [noUnd, underscoresToDots, toList_mk]
  rw [List.all_eq_true]
  intro c hc
  rw [List.mem_map] at hc
  obtain ⟨a, -, ha⟩ := hc
  subst ha
  rcases Decidable.em (a = '_') with rfl | hne
  · simp
  · simp [hne]

/-- `WINDOWS_PHONE_VERSION` captures a `[\d.]` run. -/
theorem WINDOWS_PHONE_VERSION_class {l v : List Char}
    (h : USER_AGENT_REGEX.WINDOWS_PHONE_VERSION l = some v) : v.all isDigitDot = true := by
  obtain ⟨t, -, ht⟩ := findFirst_some _ _ _ h
  exact litCap_all ht

/-- `ANDROID` captures a `[\d.]` run. -/
theorem ANDROID_class {l v : List Char}
    (h : USER_AGENT_REGEX.ANDROID l = some v) : v.all isDigitDot = true := by
  obtain ⟨t, -, ht⟩ := findFirst_some _ _ _ h
  exact litCap_all ht

/-- `WINDOWS_NT` captures a `[\d.]` run. -/
theorem WINDOWS_NT_class {l v : List Char}
    (h : USER_AGENT_REGEX.WINDOWS_NT l = some v) : v.all isDigitDot = true := by
  obtain ⟨t, -, ht⟩ := findFirst_some _ _ _ h
  exact litCap_all ht

/-- `OPERA` captures a `[\d.]` run. -/
theorem OPERA_class {l v : List Char}
    (h : USER_AGENT_REGEX.OPERA l = some v) : v.all isDigitDot = true := by
  obtain ⟨t, -, ht⟩ := findFirst_some _ _ _ h
  exact litCap_all ht

/-- `FIREFOX` captures a `[\d.]` run. -/
theorem FIREFOX_class {l v : List Char}
    (h : USER_AGENT_REGEX.FIREFOX l = some v) : v.all isDigitDot = true := by
  obtain ⟨t, -, ht⟩ := findFirst_some _ _ _ h
  exact litCap_all ht

/-- `EDGE` captures a `[\d.]` run. -/
theorem EDGE_class {l v : List Char}
    (h : USER_AGENT_REGEX.EDGE l = some v) : v.all isDigitDot = true := by
  obtain ⟨t, -, ht⟩ := findFirst_some _ _ _ h
  split at ht
  · next v0 hb => exact litCap_all (hb.trans ht)
  · exact litCap_all ht

/-- `CHROME_CRIOS` captures a `[\d.]` run. -/
theorem CHROME_CRIOS_class {l v : List Char}
    (h : USER_AGENT_REGEX.CHROME_CRIOS l = some v) : v.all isDigitDot = true := by
  obtain ⟨t, -, ht⟩ := findFirst_some _ _ _ h
  split at ht
  · next v0 hb => exact litCap_all (hb.trans ht)
  · exact litCap_all ht

/-- `SAFARI_VERSION` captures a `[\d.]` run. -/
theorem SAFARI_VERSION_class {l v : List Char}
    (h : USER_AGENT_REGEX.SAFARI_VERSION l = some v) : v.all isDigitDot = true := by
  obtain ⟨t, -, ht⟩ := findFirst_some _ _ _ h
  split at ht
  · next run hb =>
    obtain ⟨u, hu⟩ := dotStarThen_some _ _ _ ht
    split at hu
    · exact (Option.some.inj hu) ▸ litCap_all hb
    · exact absurd hu (by simp)
  · exact absurd ht (by simp)

/-- `INTERNET_EXPLORER` captures a `[\d.]` run (either alternative). -/
theorem INTERNET_EXPLORER_class {l v : List Char}
    (h : USER_AGENT_REGEX.INTERNET_EXPLORER l = some v) : v.all isDigitDot = true := by
  obtain ⟨t, -, ht⟩ := findFirst_some _ _ _ h
  split at ht
  · next v0 hb => exact litCap_all (hb.trans ht)
  · split at ht
    · obtain ⟨u, hu⟩ := dotPlusLazyThen_some _ _ _ ht
      exact litCap_all hu
    · exact absurd ht (by simp)

/-- The second registry's `WINDOWS_PHONE` captures a `[\d.]` run. -/
theorem WINDOWS_PHONE2_class {l v : List Char}
    (h : USER_AGENT_REGEX2.WINDOWS_PHONE l = some v) : v.all isDigitDot = true := by
  obtain ⟨t, -, ht⟩ := findFirst_some _ _ _ h
  split at ht
  · next v0 hb => exact litCap_all (hb.trans ht)
  · exact litCap_all ht

/-!
## Token-presence consequences of successful matches

A browser pattern can only match if its marker substring occurs, connecting
the positive matchers to the negative guard patterns.
-/

/-- An Edge match implies an `Edg` occurrence. -/
theorem EDGE_contains {l v : List Char} (h : USER_AGENT_REGEX.EDGE l = some v) :
    containsCI "Edg" l = true := by
  obtain ⟨t, hsuf, ht⟩ := findFirst_some _ _ _ h
  split at ht
  · next v0 hb =>
    exact containsCI_of _ _ _ hsuf
      (isPrefixCI_append "Edg".toList "e/".toList t (litCap_eq_some (hb.trans ht)).1)
  · exact containsCI_of _ _ _ hsuf
      (isPrefixCI_append "Edg".toList "/".toList t (litCap_eq_some ht).1)

/-- An Opera match implies an `OPR` occurrence. -/
theorem OPERA_contains {l v : List Char} (h : USER_AGENT_REGEX.OPERA l = some v) :
    containsCI "OPR" l = true := by
  obtain ⟨t, hsuf, ht⟩ := findFirst_some _ _ _ h
  exact containsCI_of _ _ _ hsuf
    (isPrefixCI_append "OPR".toList "/".toList t (litCap_eq_some ht).1)

/-- A Firefox match implies a `Firefox` occurrence. -/
theorem FIREFOX_contains {l v : List Char} (h : USER_AGENT_REGEX.FIREFOX l = some v) :
    containsCI "Firefox" l = true := by
  obtain ⟨t, hsuf, ht⟩ := findFirst_some _ _ _ h
  exact containsCI_of _ _ _ hsuf
    (isPrefixCI_append "Firefox".toList "/".toList t (litCap_eq_some ht).1)

/-- A Chrome/CriOS match implies a `Chrome` or a `CriOS` occurrence. -/
theorem CHROME_CRIOS_contains {l v : List Char}
    (h : USER_AGENT_REGEX.CHROME_CRIOS l = some v) :
    containsCI "Chrome" l = true ∨ containsCI "CriOS" l = true := by
  obtain ⟨t, hsuf, ht⟩ := findFirst_some _ _ _ h
  split at ht
  · next v0 hb =>
    exact Or.inl (containsCI_of _ _ _ hsuf
      (isPrefixCI_append "Chrome".toList "/".toList t (litCap_eq_some (hb.trans ht)).1))
  · exact Or.inr (containsCI_of _ _ _ hsuf
      (isPrefixCI_append "CriOS".toList "/".toList t (litCap_eq_some ht).1))

/-!
## Phase separation

The OS/device phase never writes browser fields, the browser phase never
writes OS/device fields, and neither CommonJS phase touches `platform`,
`userAgentString`, `isBot`, or the reserved `model` / `manufacturer` /
`architecture` fields.
-/

theorem detectDesktopOS_browser_fields (l : List Char) (d : IDeviceInfo) :
    (_detectDesktopOS l d).browser = d.browser ∧
      (_detectDesktopOS l d).browserVersion = d.browserVersion := by
  unfold _detectDesktopOS
  repeat' split
  all_goals simp

theorem detectOSAndDevice_browser_fields (l : List Char) (d : IDeviceInfo) :
    (_detectOSAndDevice l d).browser = d.browser ∧
      (_detectOSAndDevice l d).browserVersion = d.browserVersion := by
  unfold _detectOSAndDevice
  repeat' split
  all_goals first
    | exact detectDesktopOS_browser_fields l d
    | simp

theorem detectBrowser_os_fields (l : List Char) (d : IDeviceInfo) :
    (_detectBrowser l d).type = d.type ∧ (_detectBrowser l d).os = d.os ∧
      (_detectBrowser l d).osVersion = d.osVersion ∧
      (_detectBrowser l d).isMobile = d.isMobile ∧
      (_detectBrowser l d).isTablet = d.isTablet := by
  unfold _detectBrowser _detectSafariOrIE
  repeat' split
  all_goals simp

theorem detectOSAndDeviceCjs_platform_set (l : List Char) (d : IDeviceInfoCjs) (x : String) :
    _detectOSAndDeviceCjs l { d with platform := x } =
      { _detectOSAndDeviceCjs l d with platform := x } := by
  unfold _detectOSAndDeviceCjs
  repeat' split
  all_goals simp

theorem detectBrowserCjs_platform_set (l : List Char) (d : IDeviceInfoCjs) (x : String) :
    _detectBrowserCjs l { d with platform := x } =
      { _detectBrowserCjs l d with platform := x } := by
  unfold _detectBrowserCjs
  repeat' split
  all_goals simp

theorem detectBrowserCjs_os (l : List Char) (d : IDeviceInfoCjs) :
    (_detectBrowserCjs l d).os = d.os := by
  unfold _detectBrowserCjs
  repeat' split
  all_goals simp

/-!
## No version field can carry an underscore
-/

/-- Every OS branch of the flat phase leaves `osVersion` unset, sets a
`[\d.]` capture, or sets a dot-normalised capture. -/
theorem detectOSAndDevice_osVersion_noUnd (l : List Char) (d : IDeviceInfo)
    (hd : optNoUnd d.osVersion = true) :
    optNoUnd (_detectOSAndDevice l d).osVersion = true := by
  unfold _detectOSAndDevice _detectDesktopOS
  repeat' split
  all_goals simp only [optNoUnd]
  all_goals
    first
      | exact hd
      | exact noUnd_underscoresToDots _
      | (rename_i h; exact noUnd_of_digitDot (WINDOWS_PHONE_VERSION_class h))
      | (rename_i h; exact noUnd_of_digitDot (WINDOWS_NT_class h))
      | (rename_i h c1 c2; exact noUnd_of_digitDot (ANDROID_class h))

/-- Every browser branch of the flat phase sets a `[\d.]` capture or leaves
the version unset. -/
theorem detectBrowser_browserVersion_noUnd (l : List Char) (d : IDeviceInfo)
    (hd : optNoUnd d.browserVersion = true) :
    optNoUnd (_detectBrowser l d).browserVersion = true := by
  unfold _detectBrowser _detectSafariOrIE
  repeat' split
  all_goals simp only [optNoUnd]
  all_goals
    first
      | exact hd
      | (rename_i h; exact noUnd_of_digitDot (EDGE_class h))
      | (rename_i h; exact noUnd_of_digitDot (OPERA_class h))
      | (rename_i h; exact noUnd_of_digitDot (FIREFOX_class h))
      | (rename_i h; exact noUnd_of_digitDot (SAFARI_VERSION_class h))
      | (rename_i h; exact noUnd_of_digitDot (INTERNET_EXPLORER_class h))
      | (rename_i h c1; exact noUnd_of_digitDot (CHROME_CRIOS_class h))

/-- Every OS branch of the CommonJS phase leaves `os.version` unset, sets a
`[\d.]` capture, or sets a dot-normalised capture. -/
theorem detectOSAndDeviceCjs_osVersion_noUnd (l : List Char) (d : IDeviceInfoCjs)
    (hd : optNoUnd d.os.version = true) :
    optNoUnd (_detectOSAndDeviceCjs l d).os.version = true := by
  unfold _detectOSAndDeviceCjs
  repeat' split
  all_goals simp only [optNoUnd]
  all_goals
    first
      | exact hd
      | exact noUnd_underscoresToDots _
      | (rename_i h; exact noUnd_of_digitDot (WINDOWS_PHONE2_class h))
      | (rename_i h; exact noUnd_of_digitDot (WINDOWS_NT_class h))
      | (rename_i h c1; exact noUnd_of_digitDot (ANDROID_class h))
      | (rename_i h c1 c2; exact noUnd_of_digitDot (ANDROID_class h))

/-!
## Exclusion-guard consequences
-/

/-- With an iPhone occurrence the macOS rule is guarded off, so no branch of
the OS phase can produce macOS. -/
theorem detectOS_not_macos (l : List Char) (d : IDeviceInfo)
    (hip : containsCI "iPhone" l = true) (hd : d.os ≠ some OS_NAMES.MACOS) :
    (_detectOSAndDevice l d).os ≠ some OS_NAMES.MACOS := by
  unfold _detectOSAndDevice _detectDesktopOS
  repeat' split
  all_goals simp_all [USER_AGENT_REGEX.NOT_IPAD_IPHONE, OS_NAMES.WINDOWS_PHONE,
    OS_NAMES.IOS, OS_NAMES.ANDROID, OS_NAMES.WINDOWS, OS_NAMES.MACOS, OS_NAMES.LINUX]

/-- With an Android occurrence the Linux rule is guarded off, so no branch of
the OS phase can produce Linux. -/
theorem detectOS_not_linux (l : List Char) (d : IDeviceInfo)
    (han : containsCI "Android" l = true) (hd : d.os ≠ some OS_NAMES.LINUX) :
    (_detectOSAndDevice l d).os ≠ some OS_NAMES.LINUX := by
  unfold _detectOSAndDevice _detectDesktopOS
  repeat' split
  all_goals simp_all [USER_AGENT_REGEX.NOT_ANDROID, OS_NAMES.WINDOWS_PHONE,
    OS_NAMES.IOS, OS_NAMES.ANDROID, OS_NAMES.WINDOWS, OS_NAMES.MACOS, OS_NAMES.LINUX]

/-!
## The specification claims
-/

set_option maxRecDepth 100000

/-- C1: browser-ordering correctness on the specification's concrete cases —
a string with Chrome, Safari and Edg tokens reports Edge 95.0.1020.30; a
string with Chrome, Safari and OPR tokens reports Opera; a plain Safari
string with a Version/ token reports Safari 15.1 (not the Safari/ build
number); the Trident `rv:` string reports Internet Explorer 11.0 — in both
the flag-based and the CommonJS engines. -/
theorem browser_ordering_concrete_cases :
    (getDeviceType edgeSampleUA).browser = some "Edge" ∧
    (getDeviceType edgeSampleUA).browserVersion = some "95.0.1020.30" ∧
    (getDeviceType operaSampleUA).browser = some "Opera" ∧
    (getDeviceType safariSampleUA).browser = some "Safari" ∧
    (getDeviceType safariSampleUA).browserVersion = some "15.1" ∧
    (getDeviceType ieSampleUA).browser = some "Internet Explorer" ∧
    (getDeviceType ieSampleUA).browserVersion = some "11.0" ∧
    (getDeviceTypeCjs edgeSampleUA).browser.name = "Edge" ∧
    (getDeviceTypeCjs edgeSampleUA).browser.version = "95.0.1020.30" ∧
    (getDeviceTypeCjs operaSampleUA).browser.name = "Opera" ∧
    (getDeviceTypeCjs safariSampleUA).browser.name = "Safari" ∧
    (getDeviceTypeCjs safariSampleUA).browser.version = "15.1" ∧
    (getDeviceTypeCjs ieSampleUA).browser.name = "Internet Explorer" ∧
    (getDeviceTypeCjs ieSampleUA).browser.version = "11.0" := by
  refine ⟨?_, ?_, ?_, ?_, ?_, ?_, ?_, ?_, ?_, ?_, ?_, ?_, ?_, ?_⟩ <;> decide

/-- C6: for every input in which no recognizable token occurs — the empty
string included — both engines return the well-formed record with every
field at its documented default, and (the embedding being total functions)
no exception can be raised. -/
theorem no_token_all_defaults (ua p : String) (h : noRecognizedToken ua = true) :
    getDeviceType ua = defaultDeviceInfo ∧
      getDeviceTypeCjs ua p = defaultDeviceInfoCjs ua p := by
  simp only [noRecognizedToken, Bool.and_eq_true, Bool.not_eq_true',
    Option.isNone_iff_eq_none, String.toList] at h
  obtain ⟨h, hCH2⟩ := h
  obtain ⟨h, hOP2⟩ := h
  obtain ⟨h, hED2⟩ := h
  obtain ⟨h, hMAC2⟩ := h
  obtain ⟨h, hPOD2⟩ := h
  obtain ⟨h, hIPH2⟩ := h
  obtain ⟨h, hPAD2⟩ := h
  obtain ⟨h, hWP2⟩ := h
  obtain ⟨h, hIE⟩ := h
  obtain ⟨h, hSV⟩ := h
  obtain ⟨h, hSAF⟩ := h
  obtain ⟨h, hCH⟩ := h
  obtain ⟨h, hFF⟩ := h
  obtain ⟨h, hOP⟩ := h
  obtain ⟨h, hED⟩ := h
  obtain ⟨h, hLIN⟩ := h
  obtain ⟨h, hMAC⟩ := h
  obtain ⟨h, hNT⟩ := h
  obtain ⟨h, hAND⟩ := h
  obtain ⟨h, hIPH⟩ := h
  obtain ⟨hWP, hPAD⟩ := h
  constructor
  · simp [getDeviceType, _detectOSAndDevice, _detectDesktopOS, _detectBrowser,
      _detectSafariOrIE, defaultDeviceInfo, String.toList, hWP, hPAD, hIPH, hAND,
      hNT, hMAC, hLIN, hED, hOP, hFF, hCH, hSAF, hIE]
  · simp [getDeviceTypeCjs, _detectOSAndDeviceCjs, _detectBrowserCjs,
      defaultDeviceInfoCjs, USER_AGENT_REGEX2.ANDROID, USER_AGENT_REGEX2.WINDOWS_NT,
      USER_AGENT_REGEX2.FIREFOX, USER_AGENT_REGEX2.SAFARI_VERSION,
      USER_AGENT_REGEX2.INTERNET_EXPLORER, USER_AGENT_REGEX2.LINUX, String.toList,
      hWP2, hPAD2, hIPH2, hPOD2, hAND, hNT, hMAC2, hLIN, hED2, hOP2, hFF, hCH2,
      hSV, hIE]

/-- Witness for C6 at the empty string with platform hint Win32. -/
theorem no_token_all_defaults_witness :
    getDeviceType "" = defaultDeviceInfo ∧
      getDeviceTypeCjs "" "Win32" = defaultDeviceInfoCjs "" "Win32" :=
  no_token_all_defaults "" "Win32" (by decide)

/-- C10: in the flat engine, when the string carries a `Safari/` token with
digits and none of the substrings Chrome, CriOS, Edg, OPR, Firefox, but the
`Version/<digits>...Safari` pattern fails, the Safari branch returns early
with nothing set and the Internet Explorer rule is never reached — browser
and version stay unset even if `MSIE` or `Trident...rv:` tokens occur. -/
theorem safari_early_return_blocks_ie (ua : String)
    (hSaf : (USER_AGENT_REGEX.SAFARI ua.toList).isSome = true)
    (hGuard : USER_AGENT_REGEX.NOT_CHROME_CRIOS_EDGE_OPERA_FIREFOX ua.toList = false)
    (hVer : USER_AGENT_REGEX.SAFARI_VERSION ua.toList = none) :
    (getDeviceType ua).browser = none ∧ (getDeviceType ua).browserVersion = none := by
  have hg := hGuard
  simp only [USER_AGENT_REGEX.NOT_CHROME_CRIOS_EDGE_OPERA_FIREFOX,
    Bool.or_eq_false_iff] at hg
  obtain ⟨⟨⟨⟨hchr, hcri⟩, hedg⟩, hopr⟩, hff⟩ := hg
  have hED : USER_AGENT_REGEX.EDGE ua.toList = none := by
    cases hE : USER_AGENT_REGEX.EDGE ua.toList with
    | none => rfl
    | some v => rw [EDGE_contains hE] at hedg; exact Bool.noConfusion hedg
  have hOP : USER_AGENT_REGEX.OPERA ua.toList = none := by
    cases hE : USER_AGENT_REGEX.OPERA ua.toList with
    | none => rfl
    | some v => rw [OPERA_contains hE] at hopr; exact Bool.noConfusion hopr
  have hFF : USER_AGENT_REGEX.FIREFOX ua.toList = none := by
    cases hE : USER_AGENT_REGEX.FIREFOX ua.toList with
    | none => rfl
    | some v => rw [FIREFOX_contains hE] at hff; exact Bool.noConfusion hff
  have hCH : USER_AGENT_REGEX.CHROME_CRIOS ua.toList = none := by
    cases hE : USER_AGENT_REGEX.CHROME_CRIOS ua.toList with
    | none => rfl
    | some v =>
      rcases CHROME_CRIOS_contains hE with hc | hc
      · rw [hc] at hchr; exact Bool.noConfusion hchr
      · rw [hc] at hcri; exact Bool.noConfusion hcri
  have hrepr : getDeviceType ua =
      _detectBrowser ua.toList (_detectOSAndDevice ua.toList defaultDeviceInfo) := rfl
  rw [hrepr]
  simp only [_detectBrowser, hED, hOP, hFF, hCH]
  simp only [_detectSafariOrIE, hSaf, hGuard, hVer, Bool.not_false, Bool.and_true,
    Bool.true_and, if_true]
  have := detectOSAndDevice_browser_fields ua.toList defaultDeviceInfo
  simpa [defaultDeviceInfo] using this

/-- Witness for C10 at a string with a Safari token, no Version token and an
MSIE token. -/
theorem safari_early_return_blocks_ie_witness :
    (getDeviceType safariNoVersionSampleUA).browser = none ∧
      (getDeviceType safariNoVersionSampleUA).browserVersion = none :=
  safari_early_return_blocks_ie safariNoVersionSampleUA (by decide) (by decide) (by decide)

/-- C2 counterexample: on `Mozilla/4.0 (compatible; MSIE 8.0; Windows NT 6.0)`
none of the Edge, Opera, Firefox or Chrome rules matches and both the
`Safari/` and the `Version/` tokens are missing, yet the browser field does
not keep its unknown default: the Internet Explorer rule sets it. -/
theorem safari_rule_unknown_default_counterexample :
    USER_AGENT_REGEX.EDGE msieSampleUA.toList = none ∧
    USER_AGENT_REGEX.OPERA msieSampleUA.toList = none ∧
    USER_AGENT_REGEX.FIREFOX msieSampleUA.toList = none ∧
    USER_AGENT_REGEX.CHROME_CRIOS msieSampleUA.toList = none ∧
    (USER_AGENT_REGEX.SAFARI msieSampleUA.toList).isSome = false ∧
    USER_AGENT_REGEX.SAFARI_VERSION msieSampleUA.toList = none ∧
    (getDeviceType msieSampleUA).browser = some "Internet Explorer" := by
  refine ⟨?_, ?_, ?_, ?_, ?_, ?_, ?_⟩ <;> decide

/-- C2 (amended): for every input in which none of the Edge, Opera, Firefox
or Chrome rules matched, the Safari rule reports Safari only when both a
generic `Safari/` token and a matching `Version/` pattern are present, and
the reported version is the `Version/` capture (never the `Safari/` build
number); when the `Safari/` token is present and the Chrome/CriOS/Edg/OPR/
Firefox guard passes but the `Version/` pattern fails, the browser field
keeps its unknown default — while with the `Safari/` token absent a later
rule (Internet Explorer) may still set the browser, as the counterexample
shows. -/
theorem safari_rule_requires_both_tokens (ua : String)
    (hED : USER_AGENT_REGEX.EDGE ua.toList = none)
    (hOP : USER_AGENT_REGEX.OPERA ua.toList = none)
    (hFF : USER_AGENT_REGEX.FIREFOX ua.toList = none)
    (hCH : USER_AGENT_REGEX.CHROME_CRIOS ua.toList = none ∨
      USER_AGENT_REGEX.NOT_EDGE_OPERA ua.toList = true) :
    ((getDeviceType ua).browser = some BROWSER_NAMES.SAFARI →
      (USER_AGENT_REGEX.SAFARI ua.toList).isSome = true ∧
        ∃ v, USER_AGENT_REGEX.SAFARI_VERSION ua.toList = some v ∧
          (getDeviceType ua).browserVersion = some (String.mk v)) ∧
    ((USER_AGENT_REGEX.SAFARI ua.toList).isSome = true →
      USER_AGENT_REGEX.NOT_CHROME_CRIOS_EDGE_OPERA_FIREFOX ua.toList = false →
      USER_AGENT_REGEX.SAFARI_VERSION ua.toList = none →
      (getDeviceType ua).browser = none ∧ (getDeviceType ua).browserVersion = none) := by
  have hbrow := detectOSAndDevice_browser_fields ua.toList defaultDeviceInfo
  have hrepr : getDeviceType ua =
      _detectBrowser ua.toList (_detectOSAndDevice ua.toList defaultDeviceInfo) := rfl
  have hchain : _detectBrowser ua.toList (_detectOSAndDevice ua.toList defaultDeviceInfo) =
      _detectSafariOrIE ua.toList (_detectOSAndDevice ua.toList defaultDeviceInfo) := by
    rcases hCH with hc | hc
    · simp only [_detectBrowser, hED, hOP, hFF, hc]
    · cases hcc : USER_AGENT_REGEX.CHROME_CRIOS ua.toList with
      | none => simp only [_detectBrowser, hED, hOP, hFF, hcc]
      | some v => simp only [_detectBrowser, hED, hOP, hFF, hcc, hc, Bool.not_true,
          Bool.false_eq_true, if_false]
  rw [hrepr, hchain]
  unfold _detectSafariOrIE
  constructor
  · split
    · next hguard =>
      split
      · next v hv =>
        intro _
        refine ⟨?_, v, hv, rfl⟩
        cases hS : (USER_AGENT_REGEX.SAFARI ua.toList).isSome with
        | true => rfl
        | false => rw [hS] at hguard; exact Bool.noConfusion hguard
      · intro hsafari
        rw [hbrow.1] at hsafari
        exact absurd hsafari (by simp [defaultDeviceInfo])
    · split
      · intro hsafari
        exact absurd hsafari (by simp [BROWSER_NAMES.SAFARI, BROWSER_NAMES.INTERNET_EXPLORER])
      · intro hsafari
        rw [hbrow.1] at hsafari
        exact absurd hsafari (by simp [defaultDeviceInfo])
  · intro hsaf hguard hver
    rw [hver]
    have hcond : ((USER_AGENT_REGEX.SAFARI ua.toList).isSome &&
        !(USER_AGENT_REGEX.NOT_CHROME_CRIOS_EDGE_OPERA_FIREFOX ua.toList)) = true := by
      rw [hsaf, hguard]
      rfl
    rw [if_pos hcond]
    rw [hbrow.1, hbrow.2]
    exact ⟨rfl, rfl⟩

/-- Witness for C2 at the specification's Safari sample string. -/
theorem safari_rule_requires_both_tokens_witness :
    (USER_AGENT_REGEX.SAFARI safariSampleUA.toList).isSome = true ∧
      ∃ v, USER_AGENT_REGEX.SAFARI_VERSION safariSampleUA.toList = some v ∧
        (getDeviceType safariSampleUA).browserVersion = some (String.mk v) :=
  (safari_rule_requires_both_tokens safariSampleUA (by decide) (by decide) (by decide)
    (Or.inl (by decide))).1 (by decide)

/-- C3: whenever the Android rule fires (no Windows Phone marker, the iPad
and iPhone rules did not match, and `Android <digits>` matched), the result
has type android, os Android, isMobile true; isTablet is true when the
string has no Mobile/Mobi token or carries a tablet indicator (Tablet,
SM-T<digits>, KF<2+ alphanumerics>), and false when Mobile/Mobi is present
without a tablet indicator. -/
theorem android_rule_classification (ua : String)
    (hWP : USER_AGENT_REGEX.WINDOWS_PHONE ua.toList = false)
    (hPad : USER_AGENT_REGEX.IPAD ua.toList = none)
    (hPh : USER_AGENT_REGEX.IPHONE ua.toList = none)
    {v : List Char}
    (hAnd : USER_AGENT_REGEX.ANDROID ua.toList = some v) :
    (getDeviceType ua).type = DEVICE_TYPES.ANDROID ∧
    (getDeviceType ua).os = some OS_NAMES.ANDROID ∧
    (getDeviceType ua).isMobile = true ∧
    ((USER_AGENT_REGEX.MOBILE_OR_MOBI ua.toList = false ∨
      USER_AGENT_REGEX.TABLET_OR_SMT_OR_KF ua.toList = true) →
      (getDeviceType ua).isTablet = true) ∧
    (USER_AGENT_REGEX.MOBILE_OR_MOBI ua.toList = true →
      USER_AGENT_REGEX.TABLET_OR_SMT_OR_KF ua.toList = false →
      (getDeviceType ua).isTablet = false) := by
  have hrepr : getDeviceType ua =
      _detectBrowser ua.toList (_detectOSAndDevice ua.toList defaultDeviceInfo) := rfl
  obtain ⟨ht, ho, -, hm, htb⟩ :=
    detectBrowser_os_fields ua.toList (_detectOSAndDevice ua.toList defaultDeviceInfo)
  rw [hrepr, ht, ho, hm, htb]
  simp only [_detectOSAndDevice, hWP, hPad, hPh, hAnd, Option.isSome_none,
    Bool.false_eq_true, if_false, Bool.not_false, if_true]
  cases hM : USER_AGENT_REGEX.MOBILE_OR_MOBI ua.toList <;>
    cases hT : USER_AGENT_REGEX.TABLET_OR_SMT_OR_KF ua.toList <;>
      simp [hM, hT, defaultDeviceInfo]

/-- Witness for C3 at a Galaxy Tab user agent (SM-T model, no Mobile token). -/
theorem android_rule_classification_witness :
    (getDeviceType androidTabletSampleUA).type = DEVICE_TYPES.ANDROID ∧
      (getDeviceType androidTabletSampleUA).isMobile = true ∧
      (getDeviceType androidTabletSampleUA).isTablet = true := by
  have h := android_rule_classification androidTabletSampleUA (by decide) (by decide) (by decide)
    (v := "13".toList) (by decide)
  exact ⟨h.1, h.2.2.1, h.2.2.2.1 (Or.inr (by decide))⟩

/-- C9: invariant of the flag-based result — isTablet implies isMobile, and
isMobile holds exactly when the reported type is windows_phone, ios or
android (never for pc or unknown). -/
theorem flags_type_invariant (ua : String) :
    ((getDeviceType ua).isTablet = true → (getDeviceType ua).isMobile = true) ∧
    ((getDeviceType ua).isMobile = true ↔
      ((getDeviceType ua).type = DEVICE_TYPES.WINDOWS_PHONE ∨
       (getDeviceType ua).type = DEVICE_TYPES.IOS ∨
       (getDeviceType ua).type = DEVICE_TYPES.ANDROID)) := by
  have hrepr : getDeviceType ua =
      _detectBrowser ua.toList (_detectOSAndDevice ua.toList defaultDeviceInfo) := rfl
  obtain ⟨ht, -, -, hm, htb⟩ :=
    detectBrowser_os_fields ua.toList (_detectOSAndDevice ua.toList defaultDeviceInfo)
  rw [hrepr, ht, hm, htb]
  unfold _detectOSAndDevice _detectDesktopOS
  repeat' split
  all_goals simp [defaultDeviceInfo, DEVICE_TYPES.WINDOWS_PHONE, DEVICE_TYPES.IOS,
    DEVICE_TYPES.ANDROID, DEVICE_TYPES.PC, DEVICE_TYPES.UNKNOWN]

/-- Witness for C9 at an Android phone user agent. -/
theorem flags_type_invariant_witness :
    (getDeviceType androidPhoneSampleUA).isMobile = true ∧
      (getDeviceType androidPhoneSampleUA).type = DEVICE_TYPES.ANDROID := by
  have h := flags_type_invariant androidPhoneSampleUA
  exact ⟨h.2.mpr (Or.inr (Or.inr (by decide))), by decide⟩

/-- C4 (amended): a string containing an iPhone token never classifies as
macOS and one containing an Android token never classifies as generic
Linux; positively, with no Windows Phone marker a matching iPhone version
pattern forces iOS, and the Android rule firing forces Android.  (The
unconditional positive form of the claim is refuted by the
counterexample.) -/
theorem exclusion_guards (ua : String) :
    (containsCI "iPhone" ua.toList = true →
      (getDeviceType ua).os ≠ some OS_NAMES.MACOS) ∧
    (containsCI "Android" ua.toList = true →
      (getDeviceType ua).os ≠ some OS_NAMES.LINUX) ∧
    (USER_AGENT_REGEX.WINDOWS_PHONE ua.toList = false →
      ∀ v, USER_AGENT_REGEX.IPHONE ua.toList = some v →
        (getDeviceType ua).os = some OS_NAMES.IOS) ∧
    (USER_AGENT_REGEX.WINDOWS_PHONE ua.toList = false →
      USER_AGENT_REGEX.IPAD ua.toList = none →
      USER_AGENT_REGEX.IPHONE ua.toList = none →
      ∀ v, USER_AGENT_REGEX.ANDROID ua.toList = some v →
        (getDeviceType ua).os = some OS_NAMES.ANDROID) := by
  have hrepr : getDeviceType ua =
      _detectBrowser ua.toList (_detectOSAndDevice ua.toList defaultDeviceInfo) := rfl
  obtain ⟨-, ho, -, -, -⟩ :=
    detectBrowser_os_fields ua.toList (_detectOSAndDevice ua.toList defaultDeviceInfo)
  rw [hrepr, ho]
  refine ⟨?_, ?_, ?_, ?_⟩
  · intro hip
    exact detectOS_not_macos ua.toList defaultDeviceInfo hip (by simp [defaultDeviceInfo])
  · intro han
    exact detectOS_not_linux ua.toList defaultDeviceInfo han (by simp [defaultDeviceInfo])
  · intro hWP v hv
    unfold _detectOSAndDevice
    rw [hWP]
    simp only [Bool.false_eq_true, if_false]
    cases hPad : (USER_AGENT_REGEX.IPAD ua.toList).isSome with
    | true =>
      simp only [if_pos rfl]
      cases hV : USER_AGENT_REGEX.IOS_VERSION ua.toList <;> simp
    | false =>
      simp only [Bool.false_eq_true, if_false, hv]
  · intro hWP hPad hPh v hv
    unfold _detectOSAndDevice
    rw [hWP, hPad, hPh, hv]
    simp only [Option.isSome_none, Bool.false_eq_true, if_false, Bool.not_false, if_true]
    cases hM : USER_AGENT_REGEX.MOBILE_OR_MOBI ua.toList <;>
      cases hT : USER_AGENT_REGEX.TABLET_OR_SMT_OR_KF ua.toList <;>
        simp [hM, hT]

/-- C4 counterexample: `iPhone Mac OS X` contains both tokens yet classifies
as unknown, not iOS (no `OS <digits>` token), and `Linux Android` contains
both tokens yet classifies as unknown, not Android (no `Android <digits>`
token); the never-macOS / never-Linux halves do hold. -/
theorem exclusion_guards_counterexample :
    containsCI "Mac OS X" ("iPhone Mac OS X".toList) = true ∧
    containsCI "iPhone" ("iPhone Mac OS X".toList) = true ∧
    (getDeviceType "iPhone Mac OS X").os ≠ some OS_NAMES.IOS ∧
    containsCI "Linux" ("Linux Android".toList) = true ∧
    containsCI "Android" ("Linux Android".toList) = true ∧
    (getDeviceType "Linux Android").os ≠ some OS_NAMES.ANDROID := by
  refine ⟨?_, ?_, ?_, ?_, ?_, ?_⟩ <;> decide

/-- Witness for C4 at a real iPhone user agent. -/
theorem exclusion_guards_witness :
    (getDeviceType iphoneSampleUA).os ≠ some OS_NAMES.MACOS ∧
      (getDeviceType iphoneSampleUA).os = some OS_NAMES.IOS := by
  have h := exclusion_guards iphoneSampleUA
  exact ⟨h.1 (by decide), h.2.2.1 (by decide) "17_0_3".toList (by decide)⟩

/-- C8: the platform hint is copied verbatim into the CommonJS result and
never influences classification — results for any two hints agree on every
field except `platform`. -/
theorem platform_hint_verbatim_and_inert (ua p q : String) :
    (getDeviceTypeCjs ua p).platform = p ∧
    getDeviceTypeCjs ua p = { getDeviceTypeCjs ua q with platform := p } := by
  have hrepr : ∀ r : String, getDeviceTypeCjs ua r =
      _detectBrowserCjs ua.toList
        (_detectOSAndDeviceCjs ua.toList (defaultDeviceInfoCjs ua r)) :=
    fun r => rfl
  have hinit : defaultDeviceInfoCjs ua p =
      { defaultDeviceInfoCjs ua q with platform := p } := rfl
  constructor
  · rw [hrepr p, hinit, detectOSAndDeviceCjs_platform_set, detectBrowserCjs_platform_set]
  · rw [hrepr p, hrepr q, hinit, detectOSAndDeviceCjs_platform_set,
      detectBrowserCjs_platform_set]

/-- C5: version normalisation — returned version fields (flat `osVersion`
and `browserVersion`, CommonJS `os.version`) never contain an underscore:
every matched OS version token with underscores is stored with each
underscore replaced by a dot, as the concrete `17_0_3` to `17.0.3` case
shows. -/
theorem version_fields_dot_normalized :
    (∀ ua p : String,
      optNoUnd (getDeviceType ua).osVersion = true ∧
      optNoUnd (getDeviceType ua).browserVersion = true ∧
      optNoUnd (getDeviceTypeCjs ua p).os.version = true) ∧
    (getDeviceType iphoneSampleUA).osVersion = some "17.0.3" := by
  constructor
  · intro ua p
    have hrepr : getDeviceType ua =
        _detectBrowser ua.toList (_detectOSAndDevice ua.toList defaultDeviceInfo) := rfl
    have hreprC : getDeviceTypeCjs ua p =
        _detectBrowserCjs ua.toList
          (_detectOSAndDeviceCjs ua.toList (defaultDeviceInfoCjs ua p)) := rfl
    refine ⟨?_, ?_, ?_⟩
    · rw [hrepr,
        (detectBrowser_os_fields ua.toList (_detectOSAndDevice ua.toList defaultDeviceInfo)).2.2.1]
      exact detectOSAndDevice_osVersion_noUnd ua.toList defaultDeviceInfo (by rfl)
    · rw [hrepr]
      apply detectBrowser_browserVersion_noUnd
      rw [(detectOSAndDevice_browser_fields ua.toList defaultDeviceInfo).2]
      rfl
    · rw [hreprC, detectBrowserCjs_os]
      exact detectOSAndDeviceCjs_osVersion_noUnd ua.toList (defaultDeviceInfoCjs ua p) (by rfl)
  · decide

/-- C7 counterexample: on `Windows Phone OS 7.0` the flag-based classifier
sets type windows_phone and isMobile, but its version pattern
`/Windows Phone ([\d.]+)/` does not tolerate the `OS` sub-token, so
osVersion stays unset instead of `7.0`. -/
theorem windows_phone_os_token_counterexample :
    USER_AGENT_REGEX.WINDOWS_PHONE wpLegacySampleUA.toList = true ∧
    (getDeviceType wpLegacySampleUA).type = DEVICE_TYPES.WINDOWS_PHONE ∧
    (getDeviceType wpLegacySampleUA).isMobile = true ∧
    (getDeviceType wpLegacySampleUA).osVersion = none := by
  refine ⟨?_, ?_, ?_, ?_⟩ <;> decide

/-- C7 (amended): for every input with the Windows Phone marker the
flag-based classifier sets type windows_phone, os Windows Phone, isMobile
true, and extracts the version exactly when digits directly follow the
`Windows Phone ` marker (the capture of `WINDOWS_PHONE_VERSION`); the
legacy `OS` sub-token form is tolerated only by the CommonJS rule, whose
pattern `/Windows Phone (?:OS )?([\d.]+)/` yields `7.0` on
`Windows Phone OS 7.0`. -/
theorem windows_phone_rule (ua : String)
    (hWP : USER_AGENT_REGEX.WINDOWS_PHONE ua.toList = true) :
    (getDeviceType ua).type = DEVICE_TYPES.WINDOWS_PHONE ∧
    (getDeviceType ua).os = some OS_NAMES.WINDOWS_PHONE ∧
    (getDeviceType ua).isMobile = true ∧
    (getDeviceType ua).osVersion =
      (USER_AGENT_REGEX.WINDOWS_PHONE_VERSION ua.toList).map (fun v => String.mk v) ∧
    (getDeviceTypeCjs wpLegacySampleUA).os.version = some "7.0" := by
  have hrepr : getDeviceType ua =
      _detectBrowser ua.toList (_detectOSAndDevice ua.toList defaultDeviceInfo) := rfl
  obtain ⟨ht, ho, hov, hm, -⟩ :=
    detectBrowser_os_fields ua.toList (_detectOSAndDevice ua.toList defaultDeviceInfo)
  rw [hrepr, ht, ho, hov, hm]
  unfold _detectOSAndDevice
  rw [hWP]
  simp only [if_true]
  cases hv : USER_AGENT_REGEX.WINDOWS_PHONE_VERSION ua.toList with
  | some w => exact ⟨rfl, rfl, rfl, rfl, by decide⟩
  | none => exact ⟨rfl, rfl, rfl, rfl, by decide⟩

/-- Witness for C7 at a Windows Phone 8.1 user agent. -/
theorem windows_phone_rule_witness :
    (getDeviceType wpModernSampleUA).type = DEVICE_TYPES.WINDOWS_PHONE ∧
      (getDeviceType wpModernSampleUA).osVersion =
        (USER_AGENT_REGEX.WINDOWS_PHONE_VERSION wpModernSampleUA.toList).map
          (fun v => String.mk v) := by
  have h := windows_phone_rule wpModernSampleUA (by decide)
  exact ⟨h.1, h.2.2.2.1⟩

end ClientParser
